import Mathlib

/-!
Shallow embedding of src/shudder/queue.py and proofs about its behaviour.

Values that can result from a call to the Python json.loads function are
modelled by `Json`; the Python exceptions this module can raise are
modelled by `PyErr`, and a Python function that can raise is embedded as
a Lean function into `Except PyErr`.

External collaborators are parameters of the embedding: the json parser
(a function from strings to optional `Json` values), the md5 hexdigest
of hashlib, the identifiers returned by the AWS APIs, and the received
message batch.  The boto3 transport calls emitted by a function are
recorded as an explicit list so that theorems can speak about which
requests were actually issued.

A fact of Python that matters throughout: the argument of a call
logging.info(lit + x) is evaluated eagerly, and concatenating a str
literal with a value that is not a str raises TypeError.  queue.py does
exactly that with dict values (lines 61, 78, 92, and with dict tags at
line 41) and with boto3 resource objects (lines 47 and 147), which makes
those statements raise.
-/

set_option autoImplicit false

namespace Shudder

/-- A Python value as produced by json.loads: None, booleans, numbers
(restricted to integers here; no claim involves numeric payloads),
strings, lists, and dicts represented as ordered key-value lists. -/
inductive Json where
  | null
  | bool (b : Bool)
  | num (n : Int)
  | str (s : String)
  | arr (elems : List Json)
  | obj (fields : List (String × Json))

/-- The Python exceptions relevant to queue.py: json.JSONDecodeError
raised by json.loads on an unparseable string, TypeError (for example
from concatenating a str with a non-str, subscripting a str with a str
key, or iterating a non-iterable), and KeyError from a missing dict
key. -/
inductive PyErr where
  | jsonDecodeError
  | typeError
  | keyError (key : String)
deriving DecidableEq

/-- Sequencing of fallible Python statements: an exception aborts the
rest of the computation. -/
def ebind {α β : Type} (x : Except PyErr α) (f : α → Except PyErr β) : Except PyErr β :=
  match x with
  | .error e => .error e
  | .ok a => f a

/-- The behaviour of Python json.loads on a str input: `some v` when the
string parses to the JSON value `v`, `none` when json.loads raises
JSONDecodeError.  The JSON grammar itself lives in the external json
library, so the parse function is a parameter of the embedding. -/
def Loads : Type := String → Option Json

/-- Python json.loads applied to an arbitrary value: parses when the
argument is a str, raises TypeError otherwise (json.loads accepts only
str, bytes or bytearray, and no json.loads result is bytes). -/
def pyLoads (loads : Loads) (v : Json) : Except PyErr Json :=
  match v with
  | .str s =>
    match loads s with
    | some w => .ok w
    | none => .error .jsonDecodeError
  | _ => .error .typeError

/-- Python string concatenation lit + v as it occurs inside the
logging.info arguments of queue.py: succeeds only when v is a str and
raises TypeError otherwise. -/
def pyAddStr (lit : String) (v : Json) : Except PyErr String :=
  match v with
  | .str s => .ok (lit ++ s)
  | _ => .error .typeError

/-- Lookup in a Python dict represented as an ordered key-value list:
when a key occurs several times in the representation the last binding
wins, as in Python dict construction. -/
def dictGet (fields : List (String × Json)) (key : String) : Option Json :=
  match fields with
  | [] => none
  | (k, v) :: rest =>
    match dictGet rest key with
    | some w => some w
    | none => if k = key then some v else none

/-- Python subscription v[key] with a str key: dict lookup raising
KeyError when the key is absent; TypeError on every other value (str
and list demand integer indices, the rest are not subscriptable). -/
def pyGetItemStr (v : Json) (key : String) : Except PyErr Json :=
  match v with
  | .obj fields =>
    match dictGet fields key with
    | some w => .ok w
    | none => .error (.keyError key)
  | _ => .error .typeError

/-- Substring test on strings, the meaning of the Python membership
operator for two str operands; the empty pattern is contained in every
string. -/
def strContains (s pat : String) : Bool :=
  if pat = "" then true else decide ((s.splitOn pat).length ≥ 2)

/-- The Python membership test key in v for a str key: key membership on
dicts, element equality on lists (a str compares equal only to an equal
str), substring test on strings, TypeError on values that are not
iterable. -/
def pyContainsStr (v : Json) (key : String) : Except PyErr Bool :=
  match v with
  | .obj fields => .ok (fields.any fun p => p.1 == key)
  | .arr xs => .ok (xs.any fun x => match x with | .str t => t == key | _ => false)
  | .str s => .ok (strContains s key)
  | _ => .error .typeError

/-- Assignment v[key] = val on a Python dict representation: overwrite
an existing binding in place, otherwise append; item assignment with a
str key on any non-dict value raises TypeError. -/
def pySetItemStr (v : Json) (key : String) (val : Json) : Except PyErr Json :=
  match v with
  | .obj fields =>
    if fields.any fun p => p.1 == key then
      .ok (.obj (fields.map fun p => if p.1 == key then (key, val) else p))
    else
      .ok (.obj (fields ++ [(key, val)]))
  | _ => .error .typeError

/-- Python iteration over a value: lists yield their elements, dicts
their keys, strings their one-character substrings; other values raise
TypeError. -/
def pyIter (v : Json) : Except PyErr (List Json) :=
  match v with
  | .arr xs => .ok xs
  | .obj fields => .ok (fields.map fun p => Json.str p.1)
  | .str s => .ok (s.toList.map fun c => Json.str (String.singleton c))
  | _ => .error .typeError

/-- Python equality v == s against a str value: true exactly on the
equal str; values of other types never compare equal to a str. -/
def pyEqStr (v : Json) (s : String) : Bool :=
  match v with
  | .str t => t == s
  | _ => false

/-- The literal compared against at queue.py line 95. -/
def termination_msg : String := "autoscaling:EC2_INSTANCE_TERMINATING"

/-- Embedding of should_terminate (queue.py lines 89 to 101).  The
instance id is the module global INSTANCE_ID, obtained at import time
from shudder.metadata (an external lookup returning a stable string per
the spec).  The input is the body attribute of the received message.
Line by line:
line 91 parses the body; line 92 logs a concatenation of a str literal
with the parsed value; line 93 subscripts the parsed value with the
key Message and parses the result; line 94 logs another concatenation;
line 97 evaluates the three-way condition with Python short-circuit
order; lines 99 and 101 return the parsed message or None. -/
def should_terminate (loads : Loads) (instance_id : String) (body : String) :
    Except PyErr (Option Json) :=
  ebind (pyLoads loads (Json.str body)) fun first_box =>
  ebind (pyAddStr "Message raw:" first_box) fun _ =>
  ebind (pyGetItemStr first_box "Message") fun msgField =>
  ebind (pyLoads loads msgField) fun message =>
  ebind (pyAddStr "SQS Message:" message) fun _ =>
  ebind (pyContainsStr message "LifecycleTransition") fun hasLT =>
  if hasLT then
    ebind (pyGetItemStr message "LifecycleTransition") fun lt =>
    if pyEqStr lt termination_msg then
      ebind (pyGetItemStr message "EC2InstanceId") fun iid =>
      if pyEqStr iid instance_id then Except.ok (some message)
      else Except.ok none
    else Except.ok none
  else Except.ok none

/-- A received SQS message resource: the embedding keeps its body
attribute.  The resource object itself is not a str. -/
structure SQSMessage where
  body : String
deriving DecidableEq

/-- Value returned by one poll_queue call when it returns normally:
False on an empty batch, otherwise the verdict of should_terminate on a
message. -/
inductive PollResult where
  | noMessages
  | classified (verdict : Option Json)

/-- Python concatenation of the str literal at queue.py line 147 with a
boto3 Message resource object: the object is not a str, so the
operation raises TypeError. -/
def logPolledMessage (_m : SQSMessage) : Except PyErr Unit :=
  Except.error PyErr.typeError

/-- Embedding of poll_queue (queue.py lines 142 to 150).  The batch
returned by receive_messages is the input.  The first component of the
result lists the messages on which delete was called, in order; the
second component is the returned value or the escaping exception.  The
for-loop body ends in return, so at most the first message of the batch
is ever examined; an empty batch falls through to return False (line
150, modelled by noMessages). -/
def poll_queue (loads : Loads) (instance_id : String) (messages : List SQSMessage) :
    List SQSMessage × Except PyErr PollResult :=
  match messages with
  | [] => ([], Except.ok PollResult.noMessages)
  | message :: _rest =>
    match logPolledMessage message with
    | .error e => ([], Except.error e)
    | .ok _ =>
      ([message],
        match should_terminate loads instance_id message.body with
        | .error e => Except.error e
        | .ok verdict => Except.ok (PollResult.classified verdict))

/-- QUEUE_NAME (queue.py lines 30 and 31): the format string
interpolates the configured prefix and the instance id around a
hyphen. -/
def queue_name (sqsPrefixStr instance_id : String) : String :=
  sqsPrefixStr ++ "-" ++ instance_id

/-- Modelled from the spec: the configuration dictionary loaded by
shudder/config.py, a file of this repository that is absent from src/.
Per spec section 6 the recognized options are region, the sqs naming
prefix, the sns topic identifier, and an optional queue_tags mapping
applied to the channel; the first three are strings and the tags are a
mapping, modelled as a key-value list. -/
structure Config where
  region : String
  sqsPrefixStr : String
  snsTopic : String
  queueTags : Option (List (String × String))

/-- A call emitted to the SQS transport API by create_queue. -/
inductive SqsCall where
  | createQueue (name : String) (attributes : List (String × String))
  | tagQueue (url : String) (tags : List (String × String))
deriving DecidableEq

/-- Python concatenation of the str literal at queue.py line 41 with the
configured queue_tags value: the tags are a mapping (spec section 6),
not a str, so the operation raises TypeError. -/
def logTagsMapping (_tags : List (String × String)) : Except PyErr Unit :=
  Except.error PyErr.typeError

/-- Python concatenation of the str literal at queue.py line 47 with the
boto3 Queue resource object: the object is not a str, so the operation
raises TypeError. -/
def logQueueObject : Except PyErr Unit :=
  Except.error PyErr.typeError

/-- Embedding of create_queue (queue.py lines 34 to 48).  url is the
QueueUrl of the create response.  The first component of the result
records the transport calls actually issued, in order.  Line 36 logs a
concatenation of str values only and cannot raise; line 38 issues the
create request with the hard-coded VisibilityTimeout attribute; lines
40 to 42 log and apply the configured tags when present; line 47 logs a
concatenation with the Queue resource object. -/
def create_queue (cfg : Config) (instance_id : String) (url : String) :
    List SqsCall × Except PyErr Unit :=
  let name := queue_name cfg.sqsPrefixStr instance_id
  let created := [SqsCall.createQueue name [("VisibilityTimeout", "3600")]]
  match cfg.queueTags with
  | some tags =>
    (match logTagsMapping tags with
     | .error e => (created, Except.error e)
     | .ok _ =>
       (match logQueueObject with
        | .error e => (created ++ [SqsCall.tagQueue url tags], Except.error e)
        | .ok _ => (created ++ [SqsCall.tagQueue url tags], Except.ok ())))
  | none =>
    (match logQueueObject with
     | .error e => (created, Except.error e)
     | .ok _ => (created, Except.ok ()))

/-- The statement built at queue.py lines 71 to 77. -/
def newStatement (sns_topic arn statement_id : String) : Json :=
  Json.obj [("Action", Json.str "SQS:SendMessage"),
    ("Effect", Json.str "Allow"),
    ("Principal", Json.obj [("AWS", Json.str "*")]),
    ("Resource", Json.str arn),
    ("Sid", Json.str statement_id),
    ("Condition", Json.obj [("ForAllValues:ArnEquals",
      Json.obj [("aws:SourceArn", Json.str sns_topic)])])]

/-- The loop at queue.py lines 67 to 69: scan the statements, raising
the Python exception of the first offending element, and report whether
any statement carries the given Sid.  The loop never breaks, so later
elements are still visited after a match. -/
def findSid (stmts : List Json) (sid : String) : Except PyErr Bool :=
  match stmts with
  | [] => .ok false
  | s :: rest =>
    match pyGetItemStr s "Sid" with
    | .error e => .error e
    | .ok v =>
      match findSid rest sid with
      | .error e => .error e
      | .ok more => .ok (pyEqStr v sid || more)

/-- The policy manipulation of subscribe_sns, queue.py lines 61 to 79,
starting from the parsed (or defaulted) policy value: log the policy
(line 61, a str concatenation with the policy value), default the
Version and Statement entries when absent (lines 62 to 65), scan for an
existing statement with the derived Sid (lines 66 to 69), append the
new statement when none exists (lines 70 to 77), log again (line 78)
and hand the final document to set_attributes (line 79). -/
def policy_update (_loads : Loads) (statement_id sns_topic arn : String) (policy0 : Json) :
    Except PyErr Json :=
  ebind (pyAddStr "Policy: " policy0) fun _ =>
  ebind (pyContainsStr policy0 "Version") fun hasVer =>
  ebind (if hasVer then Except.ok policy0
         else pySetItemStr policy0 "Version" (Json.str "2008-10-17")) fun policy1 =>
  ebind (pyContainsStr policy1 "Statement") fun hasStmt =>
  ebind (if hasStmt then Except.ok policy1
         else pySetItemStr policy1 "Statement" (Json.arr [])) fun policy2 =>
  ebind (pyGetItemStr policy2 "Statement") fun stmtsVal =>
  ebind (pyIter stmtsVal) fun stmts =>
  ebind (findSid stmts statement_id) fun sidExists =>
  ebind (if sidExists then Except.ok policy2
         else pySetItemStr policy2 "Statement"
           (Json.arr (stmts ++ [newStatement sns_topic arn statement_id]))) fun policy3 =>
  ebind (pyAddStr "Policy:" policy3) fun _ =>
  Except.ok policy3

/-- Embedding of subscribe_sns (queue.py lines 51 to 86).  The md5
hexdigest of hashlib is an abstract string function parameter; arn is
the QueueArn attribute of the queue (always present on an existing
queue); existingPolicy is the Policy attribute, absent on a fresh
queue; subArn is the SubscriptionArn of the sns subscribe response.
Line 53 derives the statement id from topic and arn; line 55 logs a str
concatenation that cannot raise; lines 56 to 60 parse the existing
policy, treating an absent or empty attribute (Python truthiness) as an
empty document; the rest is policy_update followed by the sns subscribe
call (lines 82 to 85, whose log concatenates str values only).  On
success the result is the policy document passed to set_attributes
together with the subscription arn. -/
def subscribe_sns (md5hex : String → String) (loads : Loads) (sns_topic arn : String)
    (existingPolicy : Option String) (subArn : String) : Except PyErr (Json × String) :=
  let statement_id := md5hex (sns_topic ++ arn)
  ebind (match existingPolicy with
         | some s => if s = "" then Except.ok (Json.obj []) else pyLoads loads (Json.str s)
         | none => Except.ok (Json.obj [])) fun policy0 =>
  ebind (policy_update loads statement_id sns_topic arn policy0) fun policy3 =>
  Except.ok (policy3, subArn)

/-- The argument record of the complete_lifecycle_action request sent to
the autoscaling API (queue.py lines 134 to 139). -/
structure CompleteActionCall where
  lifecycleHookName : Json
  autoScalingGroupName : Json
  lifecycleActionToken : Json
  lifecycleActionResult : String
  instanceId : Json

/-- Embedding of complete_lifecycle_action (queue.py lines 126 to 139).
Lines 129, 130 and 132 subscript the message and concatenate the values
into str literals (raising KeyError on a missing key and TypeError on a
non-str value); line 131 logs the literal result CONTINUE; the API call
is then built from fresh subscriptions of the same message in the
keyword order of lines 135 to 139, with LifecycleActionResult the
literal CONTINUE. -/
def complete_lifecycle_action (message : Json) : Except PyErr CompleteActionCall :=
  ebind (pyGetItemStr message "LifecycleHookName") fun h1 =>
  ebind (pyAddStr "LifecycleHookName: " h1) fun _ =>
  ebind (pyGetItemStr message "AutoScalingGroupName") fun g1 =>
  ebind (pyAddStr "AutoScalingGroupName: " g1) fun _ =>
  ebind (pyGetItemStr message "EC2InstanceId") fun i1 =>
  ebind (pyAddStr "InstanceId: " i1) fun _ =>
  ebind (pyGetItemStr message "LifecycleHookName") fun hook =>
  ebind (pyGetItemStr message "AutoScalingGroupName") fun grp =>
  ebind (pyGetItemStr message "LifecycleActionToken") fun tok =>
  ebind (pyGetItemStr message "EC2InstanceId") fun iid =>
  Except.ok (CompleteActionCall.mk hook grp tok "CONTINUE" iid)

/-- A parser fragment for a well-formed termination notice addressed to
instance i-0123: the outer envelope holds the inner notice under the
key Message, and the inner notice carries the terminating transition,
the matching instance id and the lifecycle fields. -/
def loadsC1 : Loads := fun s =>
  if s = "OUTERT" then some (Json.obj [("Message", Json.str "INNERT")])
  else if s = "INNERT" then
    some (Json.obj [("LifecycleTransition", Json.str termination_msg),
      ("EC2InstanceId", Json.str "i-0123"),
      ("LifecycleHookName", Json.str "hookT"),
      ("AutoScalingGroupName", Json.str "asgT"),
      ("LifecycleActionToken", Json.str "tokT")])
  else none

/-- A parser fragment where the outer envelope parses but its Message
entry does not parse as JSON. -/
def loadsC2 : Loads := fun s =>
  if s = "OUTERM2" then some (Json.obj [("Message", Json.str "NOTJSON")]) else none

/-- A stand-in for the md5 hexdigest of hashlib. -/
def md5C : String → String := fun _ => "9e107d9d372bb6826bd81d3542a419d6"

/-- A parser fragment for an existing queue policy that already holds
one statement with the derived Sid. -/
def loadsC3 : Loads := fun s =>
  if s = "POLICY3" then
    some (Json.obj [("Version", Json.str "2008-10-17"),
      ("Statement", Json.arr [Json.obj
        [("Sid", Json.str "9e107d9d372bb6826bd81d3542a419d6")]])])
  else none

/-- A parser fragment for a batch of two notices: OUTERX wraps a
non-matching notice (a launching transition) and OUTERY wraps a
matching termination notice for instance i-0123. -/
def loadsC4 : Loads := fun s =>
  if s = "OUTERX" then some (Json.obj [("Message", Json.str "INNERX")])
  else if s = "INNERX" then
    some (Json.obj [("LifecycleTransition", Json.str "autoscaling:EC2_INSTANCE_LAUNCHING"),
      ("EC2InstanceId", Json.str "i-0123")])
  else if s = "OUTERY" then some (Json.obj [("Message", Json.str "INNERY")])
  else if s = "INNERY" then
    some (Json.obj [("LifecycleTransition", Json.str termination_msg),
      ("EC2InstanceId", Json.str "i-0123"),
      ("LifecycleHookName", Json.str "hookY"),
      ("AutoScalingGroupName", Json.str "asgY"),
      ("LifecycleActionToken", Json.str "tokY")])
  else none

/-- A parser fragment for an inner notice that carries the terminating
transition but no EC2InstanceId entry. -/
def loadsC9 : Loads := fun s =>
  if s = "OUTER9" then some (Json.obj [("Message", Json.str "INNER9")])
  else if s = "INNER9" then
    some (Json.obj [("LifecycleTransition", Json.str termination_msg)])
  else none

/-- A parser that parses nothing. -/
def loadsC10 : Loads := fun _ => none

/-- A well-formed lifecycle event record. -/
def eventC6 : Json :=
  Json.obj [("LifecycleHookName", Json.str "hookA"),
    ("AutoScalingGroupName", Json.str "asgA"),
    ("LifecycleActionToken", Json.str "tokA"),
    ("EC2InstanceId", Json.str "i-0123")]

/-- A configuration carrying a queue_tags mapping. -/
def cfgC8 : Config :=
  Config.mk "us-east-1" "myapp" "topicA" (some [("env", "prod")])

/-- should_terminate raises on every input: either the body does not
parse (JSONDecodeError at line 91), or the parsed outer envelope is not
a str and the log concatenation at line 92 raises TypeError, or it is a
str and subscripting it with the key Message at line 93 raises
TypeError.  The function can never return, neither a match nor None. -/
theorem should_terminate_raises (loads : Loads) (iid body : String) :
    ∃ e : PyErr, should_terminate loads iid body = Except.error e := by
  simp only [should_terminate, pyLoads]
  cases hv : loads body with
  | none => exact ⟨PyErr.jsonDecodeError, rfl⟩
  | some v =>
    cases v with
    | null => exact ⟨PyErr.typeError, rfl⟩
    | bool b => exact ⟨PyErr.typeError, rfl⟩
    | num n => exact ⟨PyErr.typeError, rfl⟩
    | str s => exact ⟨PyErr.typeError, rfl⟩
    | arr xs => exact ⟨PyErr.typeError, rfl⟩
    | obj fs => exact ⟨PyErr.typeError, rfl⟩

/-- The policy manipulation raises on every input: a non-str policy
value dies in the log concatenation of line 61, and a str policy value
dies either in the item assignment of line 63 or 65 or in the
subscription of line 67. -/
theorem policy_update_raises (loads : Loads) (sid topic arn : String) (v : Json) :
    ∃ e : PyErr, policy_update loads sid topic arn v = Except.error e := by
  cases v with
  | null => exact ⟨PyErr.typeError, rfl⟩
  | bool b => exact ⟨PyErr.typeError, rfl⟩
  | num n => exact ⟨PyErr.typeError, rfl⟩
  | arr xs => exact ⟨PyErr.typeError, rfl⟩
  | obj fs => exact ⟨PyErr.typeError, rfl⟩
  | str t =>
    cases hV : strContains t "Version" with
    | false =>
      exact ⟨PyErr.typeError,
        by simp [policy_update, ebind, pyAddStr, pyContainsStr, pySetItemStr, hV]⟩
    | true =>
      cases hS : strContains t "Statement" with
      | false =>
        exact ⟨PyErr.typeError,
          by simp [policy_update, ebind, pyAddStr, pyContainsStr, pySetItemStr, hV, hS]⟩
      | true =>
        exact ⟨PyErr.typeError,
          by simp [policy_update, ebind, pyAddStr, pyContainsStr, pyGetItemStr, hV, hS]⟩

/-- subscribe_sns raises on every input: the parsed (or defaulted)
policy is handed to the policy manipulation, which always raises. -/
theorem subscribe_sns_raises (md5hex : String → String) (loads : Loads)
    (topic arn : String) (pol : Option String) (subArn : String) :
    ∃ e : PyErr, subscribe_sns md5hex loads topic arn pol subArn = Except.error e := by
  unfold subscribe_sns
  cases pol with
  | none =>
    obtain ⟨e, he⟩ := policy_update_raises loads (md5hex (topic ++ arn)) topic arn (Json.obj [])
    exact ⟨e, by simp [ebind, he]⟩
  | some s =>
    by_cases hs : s = ""
    · obtain ⟨e, he⟩ := policy_update_raises loads (md5hex (topic ++ arn)) topic arn (Json.obj [])
      exact ⟨e, by simp [hs, ebind, he]⟩
    · cases hv : loads s with
      | none => exact ⟨PyErr.jsonDecodeError, by simp [pyLoads, hv, hs, ebind]⟩
      | some v =>
        obtain ⟨e, he⟩ := policy_update_raises loads (md5hex (topic ++ arn)) topic arn v
        exact ⟨e, by simp [pyLoads, hv, hs, ebind, he]⟩

/-- C1: the spec claims that for every message whose two JSON layers
parse, should_terminate returns the lifecycle event exactly when the
transition is the terminating one and the instance id is our own, and
returns no match otherwise.  The code cannot do either: on the
well-formed matching notice loadsC1 it raises TypeError at the log
concatenation of line 92 (a str plus a dict), and in general it raises
on every input, so it never returns a verdict at all. -/
theorem C1_classify_code_bug :
    should_terminate loadsC1 "i-0123" "OUTERT" = Except.error PyErr.typeError ∧
    ∀ (loads : Loads) (iid body : String),
      ∃ e : PyErr, should_terminate loads iid body = Except.error e :=
  ⟨rfl, fun loads iid body => should_terminate_raises loads iid body⟩

/-- C2: the spec claims that a message with an unparseable inner body
makes classify fail with MalformedMessage while the poll loop still
deletes the message and carries on.  On loadsC2 the outer envelope
parses and the inner body NOTJSON does not, yet should_terminate raises
TypeError at line 92 before ever parsing the inner body, and poll_queue
raises TypeError at line 147 before message.delete(), so the offending
message is not deleted and the exception escapes poll_queue. -/
theorem C2_malformed_code_bug :
    should_terminate loadsC2 "i-0123" "OUTERM2" = Except.error PyErr.typeError ∧
    loadsC2 "NOTJSON" = none ∧
    poll_queue loadsC2 "i-0123" [SQSMessage.mk "OUTERM2"] =
      ([], Except.error PyErr.typeError) :=
  ⟨rfl, rfl, rfl⟩

/-- C3: the spec claims provisioning is idempotent and that a second
subscribe_sns call against a policy already holding the derived
statement succeeds without growing the statement list.  In the code
every subscribe_sns call raises TypeError at the log concatenation of
line 61 (a str plus the policy dict) before the duplicate check or any
policy write: the call with no existing policy raises, the call against
a policy already holding the derived Sid raises, and in general no call
ever returns. -/
theorem C3_provision_code_bug :
    subscribe_sns md5C loadsC3 "topicA" "arnA" none "subA" = Except.error PyErr.typeError ∧
    subscribe_sns md5C loadsC3 "topicA" "arnA" (some "POLICY3") "subA" =
      Except.error PyErr.typeError ∧
    ∀ (md5hex : String → String) (loads : Loads) (topic arn : String)
      (pol : Option String) (subArn : String),
      ∃ e : PyErr, subscribe_sns md5hex loads topic arn pol subArn = Except.error e :=
  ⟨rfl, rfl, fun md5hex loads topic arn pol subArn =>
    subscribe_sns_raises md5hex loads topic arn pol subArn⟩

/-- C4 counterexample: the claim says that a batch holding one
non-matching and one matching message has both deleted and the matching
one classified.  On the concrete batch below poll_queue raises
TypeError while logging the first message and its delete trace is
empty: neither message is deleted and no event is produced. -/
theorem C4_batch_counterexample :
    poll_queue loadsC4 "i-0123" [SQSMessage.mk "OUTERX", SQSMessage.mk "OUTERY"] =
      ([], Except.error PyErr.typeError) := rfl

/-- C4 amended: poll_queue never deletes any received message; on every
non-empty batch it raises TypeError at the log concatenation of line
147 (a str plus the Message resource object) before the delete of the
first message, so no message is classified and no event is ever
produced. -/
theorem C4_amended_no_deletion :
    (∀ (loads : Loads) (iid : String) (msgs : List SQSMessage),
      (poll_queue loads iid msgs).1 = []) ∧
    (∀ (loads : Loads) (iid : String) (m : SQSMessage) (rest : List SQSMessage),
      poll_queue loads iid (m :: rest) = ([], Except.error PyErr.typeError)) :=
  ⟨fun loads iid msgs => by cases msgs <;> rfl, fun _ _ _ _ => rfl⟩

/-- C5: the channel resource name is the configured prefix, a hyphen
and the instance identity; with prefix myapp and identity i-0123 the
name is myapp-i-0123. -/
theorem C5_queue_name :
    queue_name "myapp" "i-0123" = "myapp-i-0123" ∧
    ∀ (p iid : String), queue_name p iid = p ++ "-" ++ iid :=
  ⟨rfl, fun _ _ => rfl⟩

/-- C6: whenever the event record carries str values under the three
logged keys and any value under the token key, complete_lifecycle_action
succeeds and issues exactly one request whose hook name, group name,
token and instance id are the corresponding event fields, with
LifecycleActionResult the literal CONTINUE. -/
theorem C6_complete_continue (message : Json) (hook grp iid : String) (tok : Json)
    (hh : pyGetItemStr message "LifecycleHookName" = Except.ok (Json.str hook))
    (hg : pyGetItemStr message "AutoScalingGroupName" = Except.ok (Json.str grp))
    (ht : pyGetItemStr message "LifecycleActionToken" = Except.ok tok)
    (hi : pyGetItemStr message "EC2InstanceId" = Except.ok (Json.str iid)) :
    complete_lifecycle_action message =
      Except.ok (CompleteActionCall.mk (Json.str hook) (Json.str grp) tok
        "CONTINUE" (Json.str iid)) := by
  simp [complete_lifecycle_action, ebind, pyAddStr, hh, hg, ht, hi]

/-- C6 witness: the theorem applied to a concrete well-formed event. -/
theorem C6_complete_witness :
    complete_lifecycle_action eventC6 =
      Except.ok (CompleteActionCall.mk (Json.str "hookA") (Json.str "asgA")
        (Json.str "tokA") "CONTINUE" (Json.str "i-0123")) :=
  C6_complete_continue eventC6 "hookA" "asgA" "i-0123" (Json.str "tokA") rfl rfl rfl rfl

/-- C7: for every configuration, instance id and queue url, the first
(and only guaranteed) transport call of create_queue is the create
request for the derived queue name with a VisibilityTimeout attribute
of 3600 seconds, one hour. -/
theorem C7_create_queue_visibility (cfg : Config) (instance_id url : String) :
    (create_queue cfg instance_id url).1.head? =
      some (SqsCall.createQueue (queue_name cfg.sqsPrefixStr instance_id)
        [("VisibilityTimeout", "3600")]) := by
  obtain ⟨r, p, t, qt⟩ := cfg
  cases qt <;> rfl

/-- C8 counterexample: with a configuration that does carry a tags
mapping, create_queue issues only the create call and then raises
TypeError at the log concatenation of line 41, before the tag call:
the tags are never applied and provisioning does not complete. -/
theorem C8_tags_counterexample :
    create_queue cfgC8 "i-0123" "urlA" =
      ([SqsCall.createQueue "myapp-i-0123" [("VisibilityTimeout", "3600")]],
        Except.error PyErr.typeError) := rfl

/-- C8 amended: whenever the configuration specifies a tags mapping,
create_queue raises TypeError while formatting the log message for the
mapping, before the tagging call: the emitted trace holds only the
create request, no tag request is made, and the error propagates out of
create_queue (the function has no handler), so provisioning fails. -/
theorem C8_amended_tag_failure (cfg : Config) (instance_id url : String)
    (tags : List (String × String)) (h : cfg.queueTags = some tags) :
    create_queue cfg instance_id url =
      ([SqsCall.createQueue (queue_name cfg.sqsPrefixStr instance_id)
          [("VisibilityTimeout", "3600")]],
        Except.error PyErr.typeError) := by
  unfold create_queue
  rw [h]
  rfl

/-- C8 witness: the amended theorem applied to a concrete tagged
configuration. -/
theorem C8_amended_witness :
    create_queue cfgC8 "i-9999" "urlB" =
      ([SqsCall.createQueue (queue_name cfgC8.sqsPrefixStr "i-9999")
          [("VisibilityTimeout", "3600")]],
        Except.error PyErr.typeError) :=
  C8_amended_tag_failure cfgC8 "i-9999" "urlB" [("env", "prod")] rfl

/-- C9 counterexample: the claim says a parsed inner notice carrying
the terminating transition but no EC2InstanceId entry makes
should_terminate raise KeyError.  On the concrete notice below the
function raises TypeError instead, and TypeError is not the KeyError
the claim names: execution dies at the log concatenation of line 92,
before the membership test of line 97 is ever reached. -/
theorem C9_keyerror_counterexample :
    should_terminate loadsC9 "i-0123" "OUTER9" = Except.error PyErr.typeError ∧
    PyErr.typeError ≠ PyErr.keyError "EC2InstanceId" :=
  ⟨rfl, by decide⟩

/-- C9 amended: for every message whose outer envelope parses to a dict
(in particular every message that could reach the inner notice at all),
should_terminate raises TypeError at the log concatenation of line 92;
the unguarded EC2InstanceId subscription of line 97 is unreachable. -/
theorem C9_amended_raises_type_error (loads : Loads) (iid body : String)
    (fields : List (String × Json)) (h : loads body = some (Json.obj fields)) :
    should_terminate loads iid body = Except.error PyErr.typeError := by
  simp [should_terminate, pyLoads, h, ebind, pyAddStr]

/-- C9 witness: the amended theorem applied to the concrete notice
whose inner body lacks the EC2InstanceId entry. -/
theorem C9_amended_witness :
    should_terminate loadsC9 "i-4567" "OUTER9" = Except.error PyErr.typeError :=
  C9_amended_raises_type_error loadsC9 "i-4567" "OUTER9"
    [("Message", Json.str "INNER9")] rfl

/-- C10: the claim says poll_queue returns False on an empty batch and
otherwise deletes the first message before classifying it.  The empty
branch behaves as claimed, but on any non-empty batch the code raises
TypeError at the log concatenation of line 147 (a str plus the Message
resource object) before message.delete(), so the first message is
neither deleted nor classified. -/
theorem C10_poll_code_bug :
    poll_queue loadsC10 "i-0123" [SQSMessage.mk "ANY"] =
      ([], Except.error PyErr.typeError) ∧
    poll_queue loadsC10 "i-0123" [] = ([], Except.ok PollResult.noMessages) :=
  ⟨rfl, rfl⟩

end Shudder
